import Mathlib

/-!
Shallow embedding of `src/main.py` (FX Summary API: EUR to USD exchange-rate
summary service).  Exchange rates are modelled as rationals (`ℚ`), dates as
ISO-8601 strings ordered lexicographically, and the network as a function from
attempt index to the outcome of that attempt.
-/

/-- Python `round(x, 4)` rounds half to even (banker rounding).  This is the
integer-valued rounding of a rational, half to even. -/
def roundHalfEven (q : ℚ) : ℤ :=
  if q - ⌊q⌋ < 1 / 2 then ⌊q⌋
  else if q - ⌊q⌋ > 1 / 2 then ⌊q⌋ + 1
  else if ⌊q⌋ % 2 = 0 then ⌊q⌋ else ⌊q⌋ + 1

/-- Python `round(x, 4)`: round to 4 decimal places, half to even. -/
def round4 (q : ℚ) : ℚ := (roundHalfEven (q * 10000) : ℚ) / 10000

/-- Model of the pydantic `DayRate`: one row of the day-by-day breakdown
(`src/main.py` lines 28-31). -/
structure DayRate where
  date : String
  rate : ℚ
  pct_change : Option ℚ
deriving DecidableEq

/-- Model of the pydantic `Totals` (`src/main.py` lines 34-38). -/
structure Totals where
  start_rate : ℚ
  end_rate : ℚ
  total_pct_change : ℚ
  mean_rate : ℚ
deriving DecidableEq

/-- Model of the pydantic `SummaryResponse` (`src/main.py` lines 41-44). -/
structure SummaryResponse where
  breakdown : Option (List DayRate)
  totals : Totals
  source : String
deriving DecidableEq

/-- A raised `HTTPException(status_code, detail)`. -/
inductive ApiError where
  | httpException (status : Nat) (detail : String)
deriving DecidableEq

/-- The JSON object handed to `calculate_summary`: an optional `"rates"` member
(a date-keyed mapping whose values optionally carry a `"USD"` field, modelled
as an association list) and an optional `"_source"` member. -/
structure RatesData where
  rates : Option (List (String × Option ℚ))
  source : Option String
deriving DecidableEq

/-- Outcome of one network attempt inside `fetch_with_retry`: either a parsed
JSON body, or a failure (`httpx.RequestError` or `httpx.HTTPStatusError`,
which the code treats identically). -/
inductive FetchOutcome where
  | success (data : RatesData)
  | failure
deriving DecidableEq

/-- Observable trace of `fetch_with_retry`: its return value, the attempt
indices at which a network call was made, and the backoff sleeps (in seconds,
in order) that were performed. -/
structure FetchTrace where
  result : Option RatesData
  attempts : List Nat
  waits : List Nat
deriving DecidableEq

/-- `MAX_RETRIES = 3` (`src/main.py` line 24). -/
def MAX_RETRIES : Nat := 3

/-- The loop body of `fetch_with_retry` (`src/main.py` lines 57-68):
`for attempt in range(MAX_RETRIES)` is modelled with a fuel argument counting
the remaining loop iterations, starting at `MAX_RETRIES`.  On success the
parsed body is returned; on failure, if `attempt < MAX_RETRIES - 1` the code
sleeps `2 ^ attempt` seconds and retries, otherwise it returns `None`. -/
def fetchLoop (net : Nat → FetchOutcome) : Nat → Nat → FetchTrace
  | _, 0 => { result := none, attempts := [], waits := [] }
  | attempt, fuel + 1 =>
    match net attempt with
    | .success d => { result := some d, attempts := [attempt], waits := [] }
    | .failure =>
      if attempt < MAX_RETRIES - 1 then
        let t := fetchLoop net (attempt + 1) fuel
        { result := t.result, attempts := attempt :: t.attempts,
          waits := 2 ^ attempt :: t.waits }
      else
        { result := none, attempts := [attempt], waits := [] }

/-- `fetch_with_retry` (`src/main.py` lines 53-68): run the retry loop from
attempt 0 with `MAX_RETRIES` iterations available. -/
def fetch_with_retry (net : Nat → FetchOutcome) : FetchTrace :=
  fetchLoop net 0 MAX_RETRIES

/-- `safe_pct_change` (`src/main.py` lines 77-81): percent change guarded
against a zero denominator. -/
def safe_pct_change (current previous : ℚ) : ℚ :=
  if previous = 0 then 0
  else round4 ((current - previous) / previous * 100)

/-- `rates[d].get("USD", 0.0)` (`src/main.py` line 100): look the date up in
the rates mapping and default a missing `USD` field to 0. -/
def rateOf (rates : List (String × Option ℚ)) (d : String) : ℚ :=
  ((rates.lookup d).bind id).getD 0

/-- `sorted(rates.keys())` (`src/main.py` line 92): the date keys in
lexicographic order. -/
def sortedDates (rates : List (String × Option ℚ)) : List String :=
  List.insertionSort (fun a b => a ≤ b) (rates.map Prod.fst)

/-- The breakdown-building loop of `calculate_summary` (`src/main.py` lines
99-108): walk the sorted dates carrying `previous_rate` (starting at `None`),
emitting for each date its rate and its percent change versus the previous
rate. -/
def dayRows (f : String → ℚ) : Option ℚ → List String → List DayRate
  | _, [] => []
  | prev, d :: ds =>
    { date := d, rate := f d, pct_change := prev.map (fun p => safe_pct_change (f d) p) } ::
      dayRows f (some (f d)) ds

/-- `calculate_summary` (`src/main.py` lines 84-127).  `rates_data.get("rates", {})`
is `rates_data.rates.getD []`; an empty series raises `HTTPException(404)`;
otherwise the sorted walk produces the breakdown and the rate list, and the
totals are computed from the rate list. -/
def calculate_summary (rates_data : RatesData) (breakdown_type : String) :
    Except ApiError SummaryResponse :=
  let rates := rates_data.rates.getD []
  if rates.isEmpty then
    .error (.httpException 404 "No rate data available")
  else
    let sorted_dates := sortedDates rates
    let day_rates := dayRows (rateOf rates) none sorted_dates
    let all_rates := sorted_dates.map (rateOf rates)
    let start_rate := all_rates.headD 0
    let end_rate := all_rates.getLastD 0
    let mean_rate := if all_rates.isEmpty then 0
      else round4 (all_rates.sum / (all_rates.length : ℚ))
    let total_pct_change := safe_pct_change end_rate start_rate
    .ok {
      breakdown := if breakdown_type = "day" then some day_rates else none
      totals := {
        start_rate := start_rate
        end_rate := end_rate
        total_pct_change := total_pct_change
        mean_rate := mean_rate }
      source := rates_data.source.getD "api" }

/-- The `/summary` endpoint `get_summary` (`src/main.py` lines 146-172).
`fallback` is the parsed content of the static snapshot file returned by
`load_fallback`; `net` gives the outcome of each network attempt.  If
`start > end` the endpoint raises `HTTPException(400)` before any fetch;
otherwise it fetches with retry, tags the data with its provenance (the
snapshot when the fetch returned `None`), and summarizes it. -/
def get_summary (net : Nat → FetchOutcome) (fallback : RatesData)
    (start endd : String) (breakdown : String) : Except ApiError SummaryResponse :=
  if start > endd then
    .error (.httpException 400 "Start date must be before end date")
  else
    let fetched := (fetch_with_retry net).result
    let data : RatesData :=
      match fetched with
      | none => { fallback with source := some "fallback" }
      | some d => { d with source := some "api" }
    calculate_summary data breakdown

/-- Replace the optional per-entry `USD` field by `some` of its
zero-defaulted value: the normalization that claim C10 says is invisible to
the summarizer. -/
def normalizeRates (rates : List (String × Option ℚ)) : List (String × Option ℚ) :=
  rates.map (fun kv => (kv.1, some (kv.2.getD 0)))

/-- Rounding an integer changes nothing. -/
lemma roundHalfEven_intCast (n : ℤ) : roundHalfEven (n : ℚ) = n := by
  rw [roundHalfEven, Int.floor_intCast]
  rw [if_pos]
  norm_num

/-- A rational that already has at most 4 decimal places is fixed by `round4`. -/
lemma round4_eq_self (q : ℚ) (n : ℤ) (h : q * 10000 = (n : ℚ)) : round4 q = q := by
  rw [round4, h, roundHalfEven_intCast, ← h]
  field_simp

example : safe_pct_change 5 0 = 0 := by simp [safe_pct_change]

example : safe_pct_change (11 / 10) 1 = 10 := by
  rw [safe_pct_change, if_neg one_ne_zero]
  norm_num
  rw [round4_eq_self 10 100000 (by norm_num)]

example : sortedDates [("2025-01-02", some 1), ("2025-01-01", some 2)] =
    ["2025-01-01", "2025-01-02"] := by
  have h : ¬ ("2025-01-02" : String) ≤ "2025-01-01" := by
    rw [String.le_iff_toList_le]; decide
  simp [sortedDates, List.insertionSort, List.orderedInsert, h]

example : (fetch_with_retry (fun _ => .failure)).waits = [1, 2] := by decide

/-! Helper lemmas about the embedded definitions. -/

lemma sortedDates_length (rates : List (String × Option ℚ)) :
    (sortedDates rates).length = rates.length := by
  simp [sortedDates]

lemma sortedDates_ne_nil {rates : List (String × Option ℚ)} (h : rates ≠ []) :
    sortedDates rates ≠ [] := by
  intro hs
  apply h
  have hl := sortedDates_length rates
  rw [hs] at hl
  exact List.length_eq_zero.mp hl.symm

lemma dayRows_map_date (f : String → ℚ) :
    ∀ (prev : Option ℚ) (ds : List String), (dayRows f prev ds).map DayRate.date = ds
  | _, [] => rfl
  | _, _ :: ds => by
    rw [dayRows, List.map_cons, dayRows_map_date f _ ds]

lemma dayRows_length (f : String → ℚ) (prev : Option ℚ) (ds : List String) :
    (dayRows f prev ds).length = ds.length := by
  have := congrArg List.length (dayRows_map_date f prev ds)
  simpa using this

lemma dayRows_map_pair (f : String → ℚ) :
    ∀ (prev : Option ℚ) (ds : List String),
      (dayRows f prev ds).map (fun r => (r.date, r.rate)) = ds.map (fun d => (d, f d))
  | _, [] => rfl
  | _, _ :: ds => by
    rw [dayRows, List.map_cons, List.map_cons, dayRows_map_pair f _ ds]

lemma dayRows_pct_some (f : String → ℚ) :
    ∀ (tl : List String) (p : String),
      (dayRows f (some (f p)) tl).map DayRate.pct_change =
        (tl.zip (p :: tl)).map (fun q => some (safe_pct_change (f q.1) (f q.2)))
  | [], _ => rfl
  | d :: tl, p => by
    rw [dayRows, List.map_cons, dayRows_pct_some f tl d]
    rfl

lemma dayRows_pct_none (f : String → ℚ) (d0 : String) (tl : List String) :
    (dayRows f none (d0 :: tl)).map DayRate.pct_change =
      none :: (tl.zip (d0 :: tl)).map (fun q => some (safe_pct_change (f q.1) (f q.2))) := by
  rw [dayRows, List.map_cons, dayRows_pct_some f tl d0]
  rfl

lemma getLastD_map (f : String → ℚ) :
    ∀ (l : List String) (a : String), (l.map f).getLastD (f a) = f (l.getLastD a)
  | [], _ => rfl
  | b :: l, a => by
    rw [List.map_cons, List.getLastD_cons, List.getLastD_cons]
    exact getLastD_map f l b

/-- The non-empty branch of `calculate_summary`, written out explicitly. -/
lemma calculate_summary_ok (rd : RatesData) (bt : String) (h : rd.rates.getD [] ≠ []) :
    calculate_summary rd bt = .ok {
      breakdown := if bt = "day"
        then some (dayRows (rateOf (rd.rates.getD [])) none (sortedDates (rd.rates.getD [])))
        else none
      totals := {
        start_rate := ((sortedDates (rd.rates.getD [])).map (rateOf (rd.rates.getD []))).headD 0
        end_rate := ((sortedDates (rd.rates.getD [])).map (rateOf (rd.rates.getD []))).getLastD 0
        total_pct_change := safe_pct_change
          (((sortedDates (rd.rates.getD [])).map (rateOf (rd.rates.getD []))).getLastD 0)
          (((sortedDates (rd.rates.getD [])).map (rateOf (rd.rates.getD []))).headD 0)
        mean_rate := round4
          ((((sortedDates (rd.rates.getD [])).map (rateOf (rd.rates.getD []))).sum) /
            ((((sortedDates (rd.rates.getD [])).map (rateOf (rd.rates.getD []))).length : ℚ))) }
      source := rd.source.getD "api" } := by
  have h0 : (rd.rates.getD []).isEmpty = false :=
    Bool.eq_false_iff.mpr (fun hc => h (List.isEmpty_iff.mp hc))
  have h1 : ((sortedDates (rd.rates.getD [])).map (rateOf (rd.rates.getD []))).isEmpty = false := by
    refine Bool.eq_false_iff.mpr (fun hc => h ?_)
    have hl := congrArg List.length (List.isEmpty_iff.mp hc)
    simpa [sortedDates_length, List.length_eq_zero] using hl
  rw [calculate_summary]
  simp only [h0, Bool.false_eq_true, if_false, h1]

/-- `calculate_summary` never raises the invalid-range error: its only error is
the 404 for an empty series. -/
lemma calculate_summary_ne_400 (rd : RatesData) (bt : String) :
    calculate_summary rd bt ≠
      .error (.httpException 400 "Start date must be before end date") := by
  by_cases hr : rd.rates.getD [] = []
  · rw [calculate_summary]
    simp [hr]
  · rw [calculate_summary_ok rd bt hr]
    exact fun hc => Except.noConfusion hc

/-- C1: for every pair of rates, `safe_pct_change` returns 0 when the previous
rate is exactly 0 (it is a total function, so no exception and no non-finite
value can arise), and otherwise returns `((current - previous) / previous) * 100`
rounded to 4 decimal places. -/
theorem C1_safe_pct_change_spec (current previous : ℚ) :
    (previous = 0 → safe_pct_change current previous = 0) ∧
    (previous ≠ 0 →
      safe_pct_change current previous = round4 ((current - previous) / previous * 100)) := by
  refine ⟨fun h => ?_, fun h => ?_⟩ <;> simp [safe_pct_change, h]

/-- Witness for C1 at `(current, previous) = (5, 0)` and `(11/10, 1)`. -/
theorem C1_safe_pct_change_spec_witness :
    safe_pct_change 5 0 = 0 ∧
    safe_pct_change (11 / 10) 1 = round4 ((11 / 10 - 1) / 1 * 100) :=
  ⟨(C1_safe_pct_change_spec 5 0).1 rfl, (C1_safe_pct_change_spec (11 / 10) 1).2 one_ne_zero⟩

/-- C4: for every input and every breakdown mode, `calculate_summary` signals
`HTTPException(404, "No rate data available")` exactly when the resolved rate
series is empty; an input carrying no `"rates"` member at all resolves to the
empty series and is likewise rejected. -/
theorem C4_noData_iff (rd : RatesData) (bt : String) :
    (calculate_summary rd bt = .error (.httpException 404 "No rate data available") ↔
      rd.rates.getD [] = []) ∧
    calculate_summary { rates := none, source := rd.source } bt =
      .error (.httpException 404 "No rate data available") := by
  constructor
  · constructor
    · intro he
      by_contra hne
      rw [calculate_summary_ok rd bt hne] at he
      exact Except.noConfusion he
    · intro hr
      rw [calculate_summary]
      simp [hr]
  · rw [calculate_summary]
    simp

/-- Witness for C4 at the empty series, "day" mode. -/
theorem C4_noData_iff_witness :
    calculate_summary { rates := some [], source := none } "day" =
      .error (.httpException 404 "No rate data available") :=
  (C4_noData_iff { rates := some [], source := none } "day").1.mpr rfl

/-- C5: when the start date is strictly after the end date, `/summary` signals
`HTTPException(400, "Start date must be before end date")`, and the outcome
does not depend on the network at all (no fetch attempt is consulted); a start
date equal to the end date is never rejected with that error. -/
theorem C5_invalid_range (net net2 : Nat → FetchOutcome) (fb : RatesData) (s e bd : String) :
    (e < s →
      get_summary net fb s e bd =
        .error (.httpException 400 "Start date must be before end date") ∧
      get_summary net fb s e bd = get_summary net2 fb s e bd) ∧
    get_summary net fb s s bd ≠
      .error (.httpException 400 "Start date must be before end date") := by
  constructor
  · intro h
    have h1 : get_summary net fb s e bd =
        .error (.httpException 400 "Start date must be before end date") := by
      rw [get_summary, if_pos h]
    have h2 : get_summary net2 fb s e bd =
        .error (.httpException 400 "Start date must be before end date") := by
      rw [get_summary, if_pos h]
    exact ⟨h1, h1.trans h2.symm⟩
  · rw [get_summary, if_neg (gt_irrefl s)]
    cases hf : (fetch_with_retry net).result with
    | none =>
      simp only [hf]
      exact calculate_summary_ne_400 _ _
    | some d =>
      simp only [hf]
      exact calculate_summary_ne_400 _ _

/-- Witness for C5 at start `"b"`, end `"a"`. -/
theorem C5_invalid_range_witness :
    get_summary (fun _ => FetchOutcome.failure) { rates := none, source := none } "b" "a" "day" =
      .error (.httpException 400 "Start date must be before end date") :=
  ((C5_invalid_range (fun _ => .failure) (fun _ => .failure)
      { rates := none, source := none } "b" "a" "day").1
    (by rw [String.lt_iff_toList_lt]; decide)).1

/-- C9 counterexample: when every attempt fails, the backoff sleeps actually
performed are exactly 1s (after attempt 0) and 2s (after attempt 1); contrary
to the claimed enumeration "1s, 2s, 4s for attempts 0,1,2", no 4-second sleep
ever occurs, because after the failed attempt 2 the attempts are exhausted and
the fetcher returns `None` without sleeping. -/
theorem C9_counterexample :
    (fetch_with_retry (fun _ => FetchOutcome.failure)).waits = [1, 2] ∧
    4 ∉ (fetch_with_retry (fun _ => FetchOutcome.failure)).waits := by decide

/-- C9 (amended): the fetcher makes at most `MAX_RETRIES = 3` attempts; after a
failed attempt with attempts remaining it waits `2 ^ attempt` seconds — 1s
after attempt 0, 2s after attempt 1 — and once attempts are exhausted no wait
is inserted, so a 4-second wait never happens. -/
theorem C9_backoff_amended (net : Nat → FetchOutcome) :
    (fetch_with_retry net).attempts.length ≤ MAX_RETRIES ∧
    (fetch_with_retry net).waits =
      (if net 0 = .failure then
        if net 1 = .failure then [2 ^ 0, 2 ^ 1] else [2 ^ 0]
      else []) ∧
    4 ∉ (fetch_with_retry net).waits := by
  cases h0 : net 0 <;> cases h1 : net 1 <;> cases h2 : net 2 <;>
    simp [fetch_with_retry, fetchLoop, MAX_RETRIES, h0, h1, h2]

/-- A one-entry rate series used to instantiate witnesses. -/
def exampleSeries : List (String × Option ℚ) := [("2025-01-01", some 1)]

/-- The one-entry series packaged as summarizer input. -/
def exampleData : RatesData := { rates := some exampleSeries, source := none }

/-- C2: for every non-empty series summarized in "day" mode, the percent-change column of the breakdown is `None` for the first (lexicographically smallest)
date and, for each later row, `safe_pct_change` of the rate at that date versus the rate at the
immediately preceding sorted date: zipping the sorted-date tail with
the sorted dates pairs each date with its predecessor. -/
theorem C2_day_pct_chain (rd : RatesData) (h : rd.rates.getD [] ≠ []) :
    ∃ resp rows,
      calculate_summary rd "day" = .ok resp ∧
      resp.breakdown = some rows ∧
      rows.map DayRate.pct_change =
        none :: ((sortedDates (rd.rates.getD [])).tail.zip (sortedDates (rd.rates.getD []))).map
          (fun q => some (safe_pct_change (rateOf (rd.rates.getD []) q.1)
            (rateOf (rd.rates.getD []) q.2))) := by
  obtain ⟨d0, tl, he⟩ := List.exists_cons_of_ne_nil (sortedDates_ne_nil h)
  refine ⟨_, dayRows (rateOf (rd.rates.getD [])) none (sortedDates (rd.rates.getD [])),
    calculate_summary_ok rd "day" h, by simp, ?_⟩
  rw [he, List.tail_cons, dayRows_pct_none]

/-- Witness for C2 at the one-entry series. -/
theorem C2_day_pct_chain_witness :
    ∃ resp rows,
      calculate_summary exampleData "day" = .ok resp ∧
      resp.breakdown = some rows ∧
      rows.map DayRate.pct_change =
        none :: ((sortedDates (exampleData.rates.getD [])).tail.zip
            (sortedDates (exampleData.rates.getD []))).map
          (fun q => some (safe_pct_change (rateOf (exampleData.rates.getD []) q.1)
            (rateOf (exampleData.rates.getD []) q.2))) :=
  C2_day_pct_chain exampleData (List.cons_ne_nil _ _)

/-- C3: if all `MAX_RETRIES` attempts fail, `fetch_with_retry` returns `None`
(an explicit unavailable signal, not an exception), and `/summary` then
produces the summary of the static snapshot tagged `source = "fallback"`; in
"day" mode its breakdown rows carry exactly the dates and rates of the snapshot. -/
theorem C3_all_fail_fallback (net : Nat → FetchOutcome) (fb : RatesData) (s e bd : String)
    (hfail : ∀ i, i < MAX_RETRIES → net i = .failure)
    (hrange : ¬ s > e) (hne : fb.rates.getD [] ≠ []) :
    (fetch_with_retry net).result = none ∧
    ∃ resp, get_summary net fb s e bd = .ok resp ∧
      resp.source = "fallback" ∧
      calculate_summary { fb with source := some "fallback" } bd = .ok resp ∧
      (bd = "day" → ∃ rows, resp.breakdown = some rows ∧
        rows.map (fun r => (r.date, r.rate)) =
          (sortedDates (fb.rates.getD [])).map (fun d => (d, rateOf (fb.rates.getD []) d))) := by
  have h0 := hfail 0 (by decide)
  have h1 := hfail 1 (by decide)
  have h2 := hfail 2 (by decide)
  have hres : (fetch_with_retry net).result = none := by
    simp [fetch_with_retry, fetchLoop, MAX_RETRIES, h0, h1, h2]
  refine ⟨hres, ?_⟩
  rw [get_summary, if_neg hrange]
  simp only [hres]
  rw [calculate_summary_ok ({ fb with source := some "fallback" }) bd hne]
  refine ⟨_, rfl, rfl, rfl, fun hbd => ?_⟩
  subst hbd
  exact ⟨dayRows (rateOf (fb.rates.getD [])) none (sortedDates (fb.rates.getD [])), by simp,
    dayRows_map_pair _ _ _⟩

/-- Witness for C3 at the always-failing network and a one-entry snapshot. -/
theorem C3_all_fail_fallback_witness :
    (fetch_with_retry (fun _ => FetchOutcome.failure)).result = none :=
  (C3_all_fail_fallback (fun _ => .failure) exampleData "2025-01-01" "2025-01-01" "none"
    (fun _ _ => rfl) (gt_irrefl _) (List.cons_ne_nil _ _)).1

/-- C6: for every non-empty series, "day" mode yields one breakdown row per
series entry, whose dates are exactly the keys of the series in sorted
(lexicographic, hence chronological) order, while "none" mode omits the
breakdown entirely. -/
theorem C6_breakdown_shape (rd : RatesData) (h : rd.rates.getD [] ≠ []) :
    (∃ resp rows, calculate_summary rd "day" = .ok resp ∧ resp.breakdown = some rows ∧
      rows.length = (rd.rates.getD []).length ∧
      rows.map DayRate.date = sortedDates (rd.rates.getD []) ∧
      List.Sorted (fun a b : String => a ≤ b) (rows.map DayRate.date) ∧
      (rows.map DayRate.date).Perm ((rd.rates.getD []).map Prod.fst)) ∧
    ∃ resp2, calculate_summary rd "none" = .ok resp2 ∧ resp2.breakdown = none := by
  constructor
  · refine ⟨_, dayRows (rateOf (rd.rates.getD [])) none (sortedDates (rd.rates.getD [])),
      calculate_summary_ok rd "day" h, by simp, ?_, dayRows_map_date _ _ _, ?_, ?_⟩
    · rw [dayRows_length, sortedDates_length]
    · rw [dayRows_map_date]
      unfold sortedDates
      exact List.sorted_insertionSort _ _
    · rw [dayRows_map_date]
      unfold sortedDates
      exact List.perm_insertionSort _ _
  · exact ⟨_, calculate_summary_ok rd "none" h, by simp⟩

/-- Witness for C6 at the one-entry series. -/
theorem C6_breakdown_shape_witness :
    (∃ resp rows, calculate_summary exampleData "day" = .ok resp ∧ resp.breakdown = some rows ∧
      rows.length = (exampleData.rates.getD []).length ∧
      rows.map DayRate.date = sortedDates (exampleData.rates.getD []) ∧
      List.Sorted (fun a b : String => a ≤ b) (rows.map DayRate.date) ∧
      (rows.map DayRate.date).Perm ((exampleData.rates.getD []).map Prod.fst)) ∧
    ∃ resp2, calculate_summary exampleData "none" = .ok resp2 ∧ resp2.breakdown = none :=
  C6_breakdown_shape exampleData (List.cons_ne_nil _ _)

/-- C7: for every non-empty series, `total_pct_change` is `safe_pct_change`
applied to the rate of the last sorted date versus the rate of the first sorted date,
and its value is identical in "day" and "none" modes. -/
theorem C7_total_pct (rd : RatesData) (h : rd.rates.getD [] ≠ []) :
    ∃ respDay respNone,
      calculate_summary rd "day" = .ok respDay ∧
      calculate_summary rd "none" = .ok respNone ∧
      respDay.totals.total_pct_change = respNone.totals.total_pct_change ∧
      respDay.totals.total_pct_change =
        safe_pct_change
          (rateOf (rd.rates.getD []) ((sortedDates (rd.rates.getD [])).getLastD ""))
          (rateOf (rd.rates.getD []) ((sortedDates (rd.rates.getD [])).headD "")) := by
  obtain ⟨d0, tl, he⟩ := List.exists_cons_of_ne_nil (sortedDates_ne_nil h)
  refine ⟨_, _, calculate_summary_ok rd "day" h, calculate_summary_ok rd "none" h, rfl, ?_⟩
  rw [he]
  rw [List.map_cons, List.getLastD_cons, List.getLastD_cons, getLastD_map]
  rfl

/-- Witness for C7 at the one-entry series. -/
theorem C7_total_pct_witness :
    ∃ respDay respNone,
      calculate_summary exampleData "day" = .ok respDay ∧
      calculate_summary exampleData "none" = .ok respNone ∧
      respDay.totals.total_pct_change = respNone.totals.total_pct_change ∧
      respDay.totals.total_pct_change =
        safe_pct_change
          (rateOf (exampleData.rates.getD [])
            ((sortedDates (exampleData.rates.getD [])).getLastD ""))
          (rateOf (exampleData.rates.getD [])
            ((sortedDates (exampleData.rates.getD [])).headD "")) :=
  C7_total_pct exampleData (List.cons_ne_nil _ _)

/-- With unique dates, reading each key back through the mapping recovers the
zero-defaulted values of the series. -/
lemma map_fst_rateOf (rates : List (String × Option ℚ))
    (hnd : (rates.map Prod.fst).Nodup) :
    (rates.map Prod.fst).map (rateOf rates) = rates.map (fun kv => kv.2.getD 0) := by
  induction rates with
  | nil => rfl
  | cons kv rest ih =>
    obtain ⟨k, v⟩ := kv
    rw [List.map_cons] at hnd
    obtain ⟨hmem, hrest⟩ := List.nodup_cons.mp hnd
    rw [List.map_cons, List.map_cons, List.map_cons]
    congr 1
    · simp [rateOf, List.lookup]
    · have hcong : ∀ d ∈ rest.map Prod.fst, rateOf ((k, v) :: rest) d = rateOf rest d := by
        intro d hd
        have hdk : d ≠ k := fun hc => hmem (hc ▸ hd)
        simp [rateOf, List.lookup, beq_false_of_ne hdk]
      rw [List.map_congr_left hcong, ih hrest]

/-- With unique dates, the rate list walked in sorted order is a permutation of
the zero-defaulted values of the series. -/
lemma allRates_perm (rates : List (String × Option ℚ))
    (hnd : (rates.map Prod.fst).Nodup) :
    ((sortedDates rates).map (rateOf rates)).Perm
      (rates.map (fun kv => kv.2.getD 0)) := by
  have h1 : (sortedDates rates).Perm (rates.map Prod.fst) := by
    unfold sortedDates
    exact List.perm_insertionSort _ _
  have h2 := h1.map (rateOf rates)
  rw [map_fst_rateOf rates hnd] at h2
  exact h2

/-- The example series of the spec: `{2025-01-01: 1.0, 2025-01-02: 1.1}`. -/
def exampleSeries2 : List (String × Option ℚ) :=
  [("2025-01-01", some 1), ("2025-01-02", some (11 / 10))]

/-- The two-entry example series packaged as summarizer input. -/
def exampleData2 : RatesData := { rates := some exampleSeries2, source := none }

lemma example_sortedDates : sortedDates exampleSeries2 = ["2025-01-01", "2025-01-02"] := by
  have hle : ("2025-01-01" : String) ≤ "2025-01-02" := by
    rw [String.le_iff_toList_le]
    decide
  simp [exampleSeries2, sortedDates, List.insertionSort, List.orderedInsert, hle]

lemma example_rate1 : rateOf exampleSeries2 "2025-01-01" = 1 := by
  simp [exampleSeries2, rateOf, List.lookup]

lemma example_rate2 : rateOf exampleSeries2 "2025-01-02" = 11 / 10 := by
  have hne12 : (("2025-01-02" : String) == "2025-01-01") = false := by decide
  simp [exampleSeries2, rateOf, List.lookup, hne12]


/-- The worked example of the spec: mean 1.05 and total percent change 10.0. -/
lemma example_two_day_summary :
    (calculate_summary exampleData2 "day").toOption.map
      (fun r => (r.totals.mean_rate, r.totals.total_pct_change)) = some (21 / 20, 10) := by
  have h : exampleData2.rates.getD [] ≠ [] := by decide
  rw [calculate_summary_ok exampleData2 "day" h]
  have hrs : exampleData2.rates.getD [] = exampleSeries2 := rfl
  rw [hrs, example_sortedDates]
  simp only [Except.toOption, Option.map, List.map_cons, List.map_nil,
    example_rate1, example_rate2, List.sum_cons, List.sum_nil,
    List.length_cons, List.length_nil, List.headD_cons,
    List.getLastD_cons, List.getLastD_nil, Option.some.injEq, Prod.mk.injEq]
  constructor
  · norm_num [round4, roundHalfEven]
  · norm_num [safe_pct_change, round4, roundHalfEven]

/-- C8: for every non-empty series with unique dates, `mean_rate` is the
arithmetic mean of the (zero-defaulted) rate values of the series rounded to 4
decimal places; and on the series `{2025-01-01: 1.0, 2025-01-02: 1.1}` the
mean is 1.05 (= 21/20) and the total percent change is 10. -/
theorem C8_mean_rate (rd : RatesData) (bt : String)
    (hnd : ((rd.rates.getD []).map Prod.fst).Nodup) (h : rd.rates.getD [] ≠ []) :
    (∃ resp, calculate_summary rd bt = .ok resp ∧
      resp.totals.mean_rate =
        round4 (((rd.rates.getD []).map (fun kv => kv.2.getD 0)).sum /
          ((rd.rates.getD []).length : ℚ))) ∧
    (calculate_summary exampleData2 "day").toOption.map
      (fun r => (r.totals.mean_rate, r.totals.total_pct_change)) = some (21 / 20, 10) := by
  constructor
  · refine ⟨_, calculate_summary_ok rd bt h, ?_⟩
    have hsum : ((sortedDates (rd.rates.getD [])).map (rateOf (rd.rates.getD []))).sum =
        ((rd.rates.getD []).map (fun kv => kv.2.getD 0)).sum :=
      (allRates_perm (rd.rates.getD []) hnd).sum_eq
    have hlen : ((sortedDates (rd.rates.getD [])).map (rateOf (rd.rates.getD []))).length =
        (rd.rates.getD []).length := by
      rw [List.length_map, sortedDates_length]
    rw [show (({
        breakdown := if bt = "day"
          then some (dayRows (rateOf (rd.rates.getD [])) none (sortedDates (rd.rates.getD [])))
          else none
        totals := {
          start_rate := ((sortedDates (rd.rates.getD [])).map (rateOf (rd.rates.getD []))).headD 0
          end_rate := ((sortedDates (rd.rates.getD [])).map (rateOf (rd.rates.getD []))).getLastD 0
          total_pct_change := safe_pct_change
            (((sortedDates (rd.rates.getD [])).map (rateOf (rd.rates.getD []))).getLastD 0)
            (((sortedDates (rd.rates.getD [])).map (rateOf (rd.rates.getD []))).headD 0)
          mean_rate := round4
            ((((sortedDates (rd.rates.getD [])).map (rateOf (rd.rates.getD []))).sum) /
              ((((sortedDates (rd.rates.getD [])).map (rateOf (rd.rates.getD []))).length : ℚ))) }
        source := rd.source.getD "api" } : SummaryResponse)).totals.mean_rate =
      round4
        ((((sortedDates (rd.rates.getD [])).map (rateOf (rd.rates.getD []))).sum) /
          ((((sortedDates (rd.rates.getD [])).map (rateOf (rd.rates.getD []))).length : ℚ)))
      from rfl, hsum, hlen]
  · exact example_two_day_summary

/-- Witness for C8 at the one-entry series with unique dates. -/
theorem C8_mean_rate_witness :
    (∃ resp, calculate_summary exampleData "day" = .ok resp ∧
      resp.totals.mean_rate =
        round4 (((exampleData.rates.getD []).map (fun kv => kv.2.getD 0)).sum /
          ((exampleData.rates.getD []).length : ℚ))) ∧
    (calculate_summary exampleData2 "day").toOption.map
      (fun r => (r.totals.mean_rate, r.totals.total_pct_change)) = some (21 / 20, 10) :=
  C8_mean_rate exampleData "day" (by decide) (List.cons_ne_nil _ _)

/-- Looking a date up after normalization wraps the zero-defaulted value. -/
lemma lookup_normalize (rates : List (String × Option ℚ)) (d : String) :
    (normalizeRates rates).lookup d = (rates.lookup d).map (fun v => some (v.getD 0)) := by
  induction rates with
  | nil => rfl
  | cons kv rest ih =>
    obtain ⟨k, v⟩ := kv
    cases hdk : d == k with
    | true => simp [normalizeRates, List.lookup, hdk]
    | false => simpa [normalizeRates, List.lookup, hdk] using ih

/-- Normalization does not change the resolved rate of any date. -/
lemma rateOf_normalize (rates : List (String × Option ℚ)) (d : String) :
    rateOf (normalizeRates rates) d = rateOf rates d := by
  rw [rateOf, rateOf, lookup_normalize]
  cases rates.lookup d with
  | none => rfl
  | some v => rfl

/-- Normalization keeps the key list, hence the sorted dates. -/
lemma sortedDates_normalize (rates : List (String × Option ℚ)) :
    sortedDates (normalizeRates rates) = sortedDates rates := by
  have hk : (normalizeRates rates).map Prod.fst = rates.map Prod.fst := by
    rw [normalizeRates, List.map_map]
    rfl
  rw [sortedDates, sortedDates, hk]

/-- C10: a date entry whose value object lacks a `USD` field resolves to rate
0.0 rather than an error, and replacing the optional `USD` field of every entry by
its zero-defaulted value (`some 0` for absent ones) leaves the entire summary
— breakdown, totals, mean, percent changes — unchanged, for every breakdown
mode. -/
theorem C10_missing_usd_is_zero (rates : List (String × Option ℚ)) (src : Option String)
    (bt d : String) (h : rates.lookup d = some none) :
    rateOf rates d = 0 ∧
    calculate_summary { rates := some (normalizeRates rates), source := src } bt =
      calculate_summary { rates := some rates, source := src } bt := by
  constructor
  · rw [rateOf, h]
    rfl
  · by_cases hr : rates = []
    · subst hr
      rfl
    · have hn : normalizeRates rates ≠ [] := by
        simpa [normalizeRates, List.map_eq_nil_iff] using hr
      have hf : rateOf (normalizeRates rates) = rateOf rates :=
        funext (rateOf_normalize rates)
      rw [calculate_summary_ok { rates := some (normalizeRates rates), source := src } bt
          (by simpa using hn),
        calculate_summary_ok { rates := some rates, source := src } bt (by simpa using hr)]
      simp only [Option.getD_some, sortedDates_normalize, hf]

/-- Witness for C10 at the series whose single entry has no `USD` field. -/
theorem C10_missing_usd_is_zero_witness :
    rateOf [("2025-01-01", none)] "2025-01-01" = 0 ∧
    calculate_summary { rates := some (normalizeRates [("2025-01-01", none)]), source := none }
        "day" =
      calculate_summary { rates := some [("2025-01-01", none)], source := none } "day" :=
  C10_missing_usd_is_zero [("2025-01-01", none)] none "day" "2025-01-01" (by decide)
